import Mathlib

/-!
Shallow embedding of the polling shard consumer of vmware-go-kcl-v2
(`clientlibrary/worker/polling-shard-consumer.go`), centred on the
`getRecords` poll loop.  External effects (the Kinesis API, the
lease/checkpoint store, the record processor, sleeps and the clock) are
modelled by oracle inputs supplied per iteration, and the observable
actions of the loop are collected in an event trace.  Timestamps and
durations are natural numbers of milliseconds.
-/

namespace KCLWorker

/-- Source constant `MaxReadTransactionsPerSecond = 5`. -/
def MaxReadTransactionsPerSecond : Nat := 5

/-- The fields of `KinesisClientLibConfiguration` read by `getRecords`. -/
structure KCLConfig where
  maxRecords : Nat
  maxRetryCount : Nat
  idleTimeBetweenReadsInMillis : Nat
  leaseRefreshPeriodMillis : Nat
  deriving Repr, DecidableEq

/-- Error values flowing through `getRecords`, flattening Go's
`errors.As` classification: the two retriable Kinesis exception types,
the checkpoint sentinel `ErrSequenceIDNotFound`, the lease-contention
type `ErrLeaseNotAcquired`, and everything else as `other`. -/
inductive GoError where
  | provisionedThroughputExceeded
  | kmsThrottling
  | seqIdNotFound
  | leaseNotAcquired
  | other (code : Nat)
  deriving Repr, DecidableEq

/-- The fields of `kinesis.GetRecordsOutput` that `getRecords` reads.
Records are opaque payloads (numbers); `millisBehindLatest` is the
possibly-nil `*int64`. -/
structure GetRecordsOutput where
  records : List Nat
  millisBehindLatest : Option Int
  nextShardIterator : Option String
  deriving Repr, DecidableEq

/-- Go's `aws.ToInt64`: dereference a possibly-nil `*int64`, nil giving 0. -/
def awsToInt64 (p : Option Int) : Int := p.getD 0

/-- Why `recordProcessor.Shutdown` is being called (`kcl.TERMINATE`
when the shard closed, `kcl.REQUESTED` on the external stop signal). -/
inductive ShutdownReason where
  | terminate
  | requested
  deriving Repr, DecidableEq

/-- Observable actions of one `getRecords` run, in program order. -/
inductive Event where
  /-- Call `sc.waitOnParentShard()` happened. -/
  | waitParent
  /-- Call `sc.getShardIterator()` happened. -/
  | getShardIterator
  /-- Call `sc.recordProcessor.Initialize(input)` happened. -/
  | initProcessor
  /-- Call `sc.checkpointer.GetLease(...)` happened, refreshing the lease. -/
  | renewLeaseAttempt
  /-- Metric `sc.mService.LeaseRenewed(...)` after a successful refresh. -/
  | leaseRenewedMetric
  /-- the transactions-per-second guard slept for `d` milliseconds. -/
  | tpsSleep (d : Nat)
  /-- Call `sc.kc.GetRecords(...)` happened. -/
  | fetch
  /-- the provisioned-throughput branch slept for `d` milliseconds. -/
  | throttleSleep (d : Nat)
  /-- the KMS-throttling branch slept for `d` milliseconds. -/
  | backoffSleep (d : Nat)
  /-- Call `sc.processRecords(...)` delivered this batch to the processor. -/
  | processRecords (records : List Nat)
  /-- Call `sc.recordProcessor.Shutdown(...)` happened, with the given reason. -/
  | shutdown (reason : ShutdownReason)
  /-- the idle-pacing branch slept for `d` milliseconds. -/
  | idleSleep (d : Nat)
  /-- the non-blocking `select` polled the stop channel. -/
  | stopCheck
  /-- Deferred call `sc.releaseLease(...)` ran. -/
  | releaseLease
  deriving Repr, DecidableEq

/-- The loop-local variables of `getRecords`, together with the shard's
lease-timeout field that the loop reads (and that `GetLease` refreshes). -/
structure LoopState where
  shardIterator : String
  retriedErrors : Nat
  transactionNum : Nat
  firstTransactionTime : Nat
  leaseTimeout : Nat
  deriving Repr, DecidableEq

instance {ε α : Type} [DecidableEq ε] [DecidableEq α] : DecidableEq (Except ε α) :=
  fun x y =>
    match x, y with
    | Except.ok a, Except.ok b =>
        if h : a = b then isTrue (by rw [h]) else isFalse (by simp [h])
    | Except.error a, Except.error b =>
        if h : a = b then isTrue (by rw [h]) else isFalse (by simp [h])
    | Except.ok _, Except.error _ => isFalse (by simp)
    | Except.error _, Except.ok _ => isFalse (by simp)

/-- Oracle inputs consumed by one iteration of the `for` loop:
clock readings, the lease-refresh outcome, and the fetch outcome. -/
structure IterEnv where
  /-- Reading of `time.Now().UTC()` at the lease check, ms. -/
  nowAtLoopTop : Nat
  /-- result of `GetLease` if called (`none` = success). -/
  leaseResult : Option GoError
  /-- the shard's lease timeout after a successful refresh. -/
  leaseTimeoutAfterRenew : Nat
  /-- Reading of `time.Now()` when `time.Since(firstTransactionTime)` is taken. -/
  nowAtTps : Nat
  /-- Reading `getRecordsStartTime`: `time.Now()` just before the call. -/
  fetchStart : Nat
  /-- the `GetRecords` call outcome. -/
  fetchResult : Except GoError GetRecordsOutput
  /-- Reading `getRecordsTransactionTime`: `time.Now()` right after the call. -/
  fetchEnd : Nat
  /-- Reading of `time.Now()` when `time.Since(getRecordsTransactionTime)` is taken. -/
  nowAfterError : Nat
  /-- whether the stop channel is readable at the `select`. -/
  stopSet : Bool
  deriving Repr, DecidableEq

/-- Outcome of one loop iteration: continue with the updated state, or
return from `getRecords` with the given `error` (`none` = `nil`). -/
inductive StepResult where
  | more (s : LoopState)
  | exit (r : Option GoError)
  deriving Repr, DecidableEq

/-- The loop state after a successful fetch that continues: the retry
counter resets, `transactionNum` is incremented (`firstTransactionTime`
is recorded at `getRecordsTransactionTime` when it becomes 1), and the
continuation iterator is adopted. -/
def nextLoopState (s : LoopState) (env : IterEnv) (it : String) : LoopState :=
  { shardIterator := it,
    retriedErrors := 0,
    transactionNum := s.transactionNum + 1,
    firstTransactionTime :=
      if s.transactionNum + 1 = 1 then env.fetchEnd else s.firstTransactionTime,
    leaseTimeout := s.leaseTimeout }

/-- The idle-pacing sleep events of one successful iteration: one sleep
of `idleTimeBetweenReadsInMillis` exactly when the batch was empty and
`millisBehindLatest` is below that threshold. -/
def idleEvents (cfg : KCLConfig) (resp : GetRecordsOutput) : List Event :=
  if resp.records.length = 0 ∧
      awsToInt64 resp.millisBehindLatest < (cfg.idleTimeBetweenReadsInMillis : Int) then
    [Event.idleSleep cfg.idleTimeBetweenReadsInMillis]
  else []

/-- The tail of an iteration after a successful `GetRecords` call:
reset `retriedErrors`, bump `transactionNum` (recording
`firstTransactionTime` on the first transaction), deliver the batch,
close out on a nil continuation iterator, otherwise adopt it, idle-pace
when caught up, and poll the stop channel. -/
def successPhase (cfg : KCLConfig) (s : LoopState) (env : IterEnv)
    (resp : GetRecordsOutput) : List Event × StepResult :=
  match resp.nextShardIterator with
  | none =>
      ([Event.processRecords resp.records,
        Event.shutdown ShutdownReason.terminate], StepResult.exit none)
  | some it =>
      if env.stopSet then
        (Event.processRecords resp.records ::
          (idleEvents cfg resp ++
            [Event.stopCheck, Event.shutdown ShutdownReason.requested]),
         StepResult.exit none)
      else
        (Event.processRecords resp.records ::
          (idleEvents cfg resp ++ [Event.stopCheck]),
         StepResult.more (nextLoopState s env it))

/-- Dispatch on the `GetRecords` outcome: the two retriable exception
classes bump the shared `retriedErrors` counter, give up past
`maxRetryCount`, and otherwise sleep (remainder of a 1-second cooldown
measured from `getRecordsTransactionTime`, resp. `2^retriedErrors × 100` ms)
and loop; any other error returns; success goes to `successPhase`. -/
def doFetch (cfg : KCLConfig) (s : LoopState) (env : IterEnv) :
    List Event × StepResult :=
  match env.fetchResult with
  | Except.error e =>
      if e = GoError.provisionedThroughputExceeded then
        if cfg.maxRetryCount < s.retriedErrors + 1 then ([], StepResult.exit (some e))
        else if env.nowAfterError - env.fetchEnd < 1000 then
          ([Event.throttleSleep (1000 - (env.nowAfterError - env.fetchEnd))],
           StepResult.more { s with retriedErrors := s.retriedErrors + 1 })
        else
          ([], StepResult.more { s with retriedErrors := s.retriedErrors + 1 })
      else if e = GoError.kmsThrottling then
        if cfg.maxRetryCount < s.retriedErrors + 1 then ([], StepResult.exit (some e))
        else
          ([Event.backoffSleep (2 ^ (s.retriedErrors + 1) * 100)],
           StepResult.more { s with retriedErrors := s.retriedErrors + 1 })
      else ([], StepResult.exit (some e))
  | Except.ok resp => successPhase cfg s env resp

/-- The transactions-per-second guard followed by the fetch: past
`MaxReadTransactionsPerSecond` successful transactions, reset the count
and sleep `timeDiff = time.Since(firstTransactionTime)` when it is
under one second (the source sleeps `timeDiff` itself, not the
remainder of the second), then issue `GetRecords`. -/
def fetchPhase (cfg : KCLConfig) (s : LoopState) (env : IterEnv) :
    List Event × StepResult :=
  if MaxReadTransactionsPerSecond < s.transactionNum then
    if env.nowAtTps - s.firstTransactionTime < 1000 then
      (Event.tpsSleep (env.nowAtTps - s.firstTransactionTime) :: Event.fetch ::
         (doFetch cfg { s with transactionNum := 0 } env).1,
       (doFetch cfg { s with transactionNum := 0 } env).2)
    else
      (Event.fetch :: (doFetch cfg { s with transactionNum := 0 } env).1,
       (doFetch cfg { s with transactionNum := 0 } env).2)
  else
    (Event.fetch :: (doFetch cfg s env).1, (doFetch cfg s env).2)

/-- One iteration of the `for` loop: when now is past
`leaseTimeout - leaseRefreshPeriodMillis`, refresh the lease —
`ErrLeaseNotAcquired` returns `nil`, any other refresh error returns
that error, success records the metric — then run the fetch phase. -/
def iteration (cfg : KCLConfig) (s : LoopState) (env : IterEnv) :
    List Event × StepResult :=
  if s.leaseTimeout < env.nowAtLoopTop + cfg.leaseRefreshPeriodMillis then
    match env.leaseResult with
    | some e =>
        if e = GoError.leaseNotAcquired then
          ([Event.renewLeaseAttempt], StepResult.exit none)
        else
          ([Event.renewLeaseAttempt], StepResult.exit (some e))
    | none =>
        (Event.renewLeaseAttempt :: Event.leaseRenewedMetric ::
           (fetchPhase cfg { s with leaseTimeout := env.leaseTimeoutAfterRenew } env).1,
         (fetchPhase cfg { s with leaseTimeout := env.leaseTimeoutAfterRenew } env).2)
  else fetchPhase cfg s env

/-- Result of running the loop on a finite oracle: a genuine return
from `getRecords`, or the oracle ran out while the loop would continue. -/
inductive RunResult where
  | done (r : Option GoError)
  | outOfFuel (s : LoopState)
  deriving Repr, DecidableEq

/-- The `for` loop of `getRecords`, iterated over a finite list of
per-iteration oracles. -/
def runLoop (cfg : KCLConfig) : LoopState → List IterEnv → List Event × RunResult
  | s, [] => ([], RunResult.outOfFuel s)
  | s, env :: rest =>
      match iteration cfg s env with
      | (evs, StepResult.exit r) => (evs, RunResult.done r)
      | (evs, StepResult.more s2) =>
          (evs ++ (runLoop cfg s2 rest).1, (runLoop cfg s2 rest).2)

/-- Oracle inputs for a whole `getRecords` run. -/
structure RunEnv where
  /-- result of `waitOnParentShard` (`none` = success). -/
  parentWaitResult : Option GoError
  /-- result of `getShardIterator`. -/
  iteratorResult : Except GoError String
  /-- the shard's lease timeout on entry to the loop. -/
  initialLeaseTimeout : Nat
  /-- per-iteration oracles. -/
  iterEnvs : List IterEnv
  deriving Repr, DecidableEq

/-- The loop state on entry: the acquired iterator, `retriedErrors = 0`,
`transactionNum = 0`, the zero value of `firstTransactionTime`, and the
shard's current lease timeout. -/
def initialLoopState (env : RunEnv) (it : String) : LoopState :=
  { shardIterator := it, retriedErrors := 0, transactionNum := 0,
    firstTransactionTime := 0, leaseTimeout := env.initialLeaseTimeout }

/-- The body of `getRecords` past the parent wait: acquire the shard
iterator (an error returns it), initialize the record processor with
`retriedErrors = 0`, `transactionNum = 0`, and enter the loop. -/
def getRecordsAfterParent (cfg : KCLConfig) (env : RunEnv) :
    List Event × RunResult :=
  match env.iteratorResult with
  | Except.error e => ([Event.getShardIterator], RunResult.done (some e))
  | Except.ok it =>
      (Event.getShardIterator :: Event.initProcessor ::
         (runLoop cfg (initialLoopState env it) env.iterEnvs).1,
       (runLoop cfg (initialLoopState env it) env.iterEnvs).2)

/-- The body of `getRecords` (everything but the deferred lease
release): wait on the parent shard, where `ErrSequenceIDNotFound` is
ignored and any other error returns, then proceed. -/
def getRecordsBody (cfg : KCLConfig) (env : RunEnv) : List Event × RunResult :=
  match env.parentWaitResult with
  | some e =>
      if e = GoError.seqIdNotFound then
        (Event.waitParent :: (getRecordsAfterParent cfg env).1,
         (getRecordsAfterParent cfg env).2)
      else ([Event.waitParent], RunResult.done (some e))
  | none =>
      (Event.waitParent :: (getRecordsAfterParent cfg env).1,
       (getRecordsAfterParent cfg env).2)

/-- Function `getRecords`: the body under `defer sc.releaseLease(sc.shard.ID)` —
on every actual return the deferred release runs last. -/
def getRecords (cfg : KCLConfig) (env : RunEnv) : List Event × RunResult :=
  match getRecordsBody cfg env with
  | (evs, RunResult.done r) => (evs ++ [Event.releaseLease], RunResult.done r)
  | (evs, RunResult.outOfFuel s) => (evs, RunResult.outOfFuel s)

/-- Recognises `shutdown` events (record-processor shutdown notifications). -/
def Event.isShutdown : Event → Bool
  | Event.shutdown _ => true
  | _ => false

/-- Recognises idle-pacing sleep events. -/
def Event.isIdleSleep : Event → Bool
  | Event.idleSleep _ => true
  | _ => false

/-- When the lease-refresh window has not been entered, the iteration is
just the fetch phase. -/
lemma iteration_not_due (cfg : KCLConfig) (s : LoopState) (env : IterEnv)
    (h : env.nowAtLoopTop + cfg.leaseRefreshPeriodMillis ≤ s.leaseTimeout) :
    iteration cfg s env = fetchPhase cfg s env := by
  unfold iteration
  rw [if_neg (by omega)]

/-- Under the transactions-per-second cap, the fetch phase is the fetch
followed by `doFetch`. -/
lemma fetchPhase_low_tps (cfg : KCLConfig) (s : LoopState) (env : IterEnv)
    (h : s.transactionNum ≤ MaxReadTransactionsPerSecond) :
    fetchPhase cfg s env =
      (Event.fetch :: (doFetch cfg s env).1, (doFetch cfg s env).2) := by
  unfold fetchPhase
  rw [if_neg (by omega)]

/-- A provisioned-throughput-exceeded failure within the retry budget:
sleep out the remainder of one second from `getRecordsTransactionTime`
(nothing if a second has already elapsed) and loop with the counter
bumped. -/
lemma doFetch_pte (cfg : KCLConfig) (s : LoopState) (env : IterEnv)
    (hfail : env.fetchResult = Except.error GoError.provisionedThroughputExceeded)
    (hbud : s.retriedErrors + 1 ≤ cfg.maxRetryCount) :
    doFetch cfg s env =
      ((if env.nowAfterError - env.fetchEnd < 1000 then
          [Event.throttleSleep (1000 - (env.nowAfterError - env.fetchEnd))]
        else []),
       StepResult.more { s with retriedErrors := s.retriedErrors + 1 }) := by
  unfold doFetch
  rw [hfail]
  simp only [reduceIte]
  rw [if_neg (show ¬cfg.maxRetryCount < s.retriedErrors + 1 from by omega)]
  split <;> rfl

/-- A KMS-throttling failure within the retry budget: sleep
`2^retriedErrors × 100` ms and loop with the counter bumped. -/
lemma doFetch_kms (cfg : KCLConfig) (s : LoopState) (env : IterEnv)
    (hfail : env.fetchResult = Except.error GoError.kmsThrottling)
    (hbud : s.retriedErrors + 1 ≤ cfg.maxRetryCount) :
    doFetch cfg s env =
      ([Event.backoffSleep (2 ^ (s.retriedErrors + 1) * 100)],
       StepResult.more { s with retriedErrors := s.retriedErrors + 1 }) := by
  unfold doFetch
  rw [hfail]
  simp only [eq_false (show GoError.kmsThrottling ≠ GoError.provisionedThroughputExceeded from by decide), if_false, reduceIte]
  rw [if_neg (show ¬cfg.maxRetryCount < s.retriedErrors + 1 from by omega)]

/-- Either retriable failure past the retry budget returns the error. -/
lemma doFetch_budget_exhausted (cfg : KCLConfig) (s : LoopState) (env : IterEnv)
    (e : GoError)
    (he : e = GoError.provisionedThroughputExceeded ∨ e = GoError.kmsThrottling)
    (hfail : env.fetchResult = Except.error e)
    (hbud : cfg.maxRetryCount < s.retriedErrors + 1) :
    doFetch cfg s env = ([], StepResult.exit (some e)) := by
  unfold doFetch
  rw [hfail]
  rcases he with he | he <;> subst he
  · simp only [reduceIte]
    rw [if_pos (show cfg.maxRetryCount < s.retriedErrors + 1 from hbud)]
  · simp only [eq_false (show GoError.kmsThrottling ≠ GoError.provisionedThroughputExceeded from by decide), if_false, reduceIte]
    rw [if_pos (show cfg.maxRetryCount < s.retriedErrors + 1 from hbud)]

/-- A successful fetch whose response carries no continuation iterator:
deliver the batch, notify shutdown with reason `terminate`, return `nil`. -/
lemma successPhase_nil_iterator (cfg : KCLConfig) (s : LoopState) (env : IterEnv)
    (resp : GetRecordsOutput) (h : resp.nextShardIterator = none) :
    successPhase cfg s env resp =
      ([Event.processRecords resp.records,
        Event.shutdown ShutdownReason.terminate], StepResult.exit none) := by
  unfold successPhase
  rw [h]

/-- The only possible idle-pacing event is the configured idle sleep. -/
lemma mem_idleEvents {cfg : KCLConfig} {resp : GetRecordsOutput} {ev : Event}
    (h : ev ∈ idleEvents cfg resp) :
    ev = Event.idleSleep cfg.idleTimeBetweenReadsInMillis := by
  unfold idleEvents at h
  split at h <;> simp_all

/-- Phase `successPhase` never releases the lease itself. -/
lemma successPhase_no_release (cfg : KCLConfig) (s : LoopState) (env : IterEnv)
    (resp : GetRecordsOutput) :
    Event.releaseLease ∉ (successPhase cfg s env resp).1 := by
  have hidle : Event.releaseLease ∉ idleEvents cfg resp := by
    intro hm
    have h2 := mem_idleEvents hm
    simp at h2
  unfold successPhase
  rcases h : resp.nextShardIterator with _ | it <;> simp only [h]
  · simp
  · split <;> simp [hidle]

/-- Phase `doFetch` never releases the lease itself. -/
lemma doFetch_no_release (cfg : KCLConfig) (s : LoopState) (env : IterEnv) :
    Event.releaseLease ∉ (doFetch cfg s env).1 := by
  unfold doFetch
  split
  · split_ifs <;> simp
  · exact successPhase_no_release cfg s env _

/-- Phase `fetchPhase` never releases the lease itself. -/
lemma fetchPhase_no_release (cfg : KCLConfig) (s : LoopState) (env : IterEnv) :
    Event.releaseLease ∉ (fetchPhase cfg s env).1 := by
  unfold fetchPhase
  split
  · split <;> simp [doFetch_no_release]
  · simp [doFetch_no_release]

/-- One loop iteration never releases the lease itself. -/
lemma iteration_no_release (cfg : KCLConfig) (s : LoopState) (env : IterEnv) :
    Event.releaseLease ∉ (iteration cfg s env).1 := by
  unfold iteration
  split
  · split
    · split <;> simp
    · simp [fetchPhase_no_release]
  · exact fetchPhase_no_release cfg s env

/-- The loop never releases the lease itself. -/
lemma runLoop_no_release (cfg : KCLConfig) (envs : List IterEnv) :
    ∀ s, Event.releaseLease ∉ (runLoop cfg s envs).1 := by
  induction envs with
  | nil => intro s; simp [runLoop]
  | cons env rest ih =>
      intro s
      unfold runLoop
      rcases hit : iteration cfg s env with ⟨evs, r⟩
      have hnr : Event.releaseLease ∉ evs := by
        have h := iteration_no_release cfg s env
        rw [hit] at h
        exact h
      rcases r with s2 | r
      · simp only [List.mem_append, not_or]
        exact ⟨hnr, ih s2⟩
      · exact hnr

/-- The body of `getRecords` (before the deferred release) never
releases the lease itself. -/
lemma getRecordsBody_no_release (cfg : KCLConfig) (env : RunEnv) :
    Event.releaseLease ∉ (getRecordsBody cfg env).1 := by
  have hafter : Event.releaseLease ∉ (getRecordsAfterParent cfg env).1 := by
    unfold getRecordsAfterParent
    split
    · simp
    · simp [runLoop_no_release]
  unfold getRecordsBody
  split
  · split
    · simp_all
    · simp
  · simp_all

/-- On a failed fetch, `doFetch` never polls the stop channel. -/
lemma doFetch_error_no_stop (cfg : KCLConfig) (s : LoopState) (env : IterEnv)
    (e : GoError) (h : env.fetchResult = Except.error e) :
    Event.stopCheck ∉ (doFetch cfg s env).1 := by
  unfold doFetch
  split
  · split_ifs <;> simp
  · simp_all

/-- On a failed fetch, `doFetch` never idle-sleeps. -/
lemma doFetch_error_no_idle (cfg : KCLConfig) (s : LoopState) (env : IterEnv)
    (e : GoError) (h : env.fetchResult = Except.error e) (d : Nat) :
    Event.idleSleep d ∉ (doFetch cfg s env).1 := by
  unfold doFetch
  split
  · split_ifs <;> simp
  · simp_all

/-- On a failed fetch, the fetch phase never polls the stop channel. -/
lemma fetchPhase_error_no_stop (cfg : KCLConfig) (s : LoopState) (env : IterEnv)
    (e : GoError) (h : env.fetchResult = Except.error e) :
    Event.stopCheck ∉ (fetchPhase cfg s env).1 := by
  unfold fetchPhase
  split_ifs <;> simp [doFetch_error_no_stop cfg _ env e h]

/-- On a failed fetch, the fetch phase never idle-sleeps. -/
lemma fetchPhase_error_no_idle (cfg : KCLConfig) (s : LoopState) (env : IterEnv)
    (e : GoError) (h : env.fetchResult = Except.error e) (d : Nat) :
    Event.idleSleep d ∉ (fetchPhase cfg s env).1 := by
  unfold fetchPhase
  split_ifs <;> simp [doFetch_error_no_idle cfg _ env e h d]

/-- On a failed fetch, an iteration never polls the stop channel. -/
lemma iteration_error_no_stop (cfg : KCLConfig) (s : LoopState) (env : IterEnv)
    (e : GoError) (h : env.fetchResult = Except.error e) :
    Event.stopCheck ∉ (iteration cfg s env).1 := by
  unfold iteration
  split
  · split
    · split_ifs <;> simp
    · simp [fetchPhase_error_no_stop cfg _ env e h]
  · exact fetchPhase_error_no_stop cfg s env e h

/-- On a failed fetch, an iteration never idle-sleeps. -/
lemma iteration_error_no_idle (cfg : KCLConfig) (s : LoopState) (env : IterEnv)
    (e : GoError) (h : env.fetchResult = Except.error e) (d : Nat) :
    Event.idleSleep d ∉ (iteration cfg s env).1 := by
  unfold iteration
  split
  · split
    · split_ifs <;> simp
    · simp [fetchPhase_error_no_idle cfg _ env e h d]
  · exact fetchPhase_error_no_idle cfg s env e h d

/-- If every fetch in a run fails, the loop never polls the stop channel. -/
lemma runLoop_allfail_no_stop (cfg : KCLConfig) (envs : List IterEnv)
    (hfail : ∀ env ∈ envs, ∃ e, env.fetchResult = Except.error e) :
    ∀ s, Event.stopCheck ∉ (runLoop cfg s envs).1 := by
  induction envs with
  | nil => intro s; simp [runLoop]
  | cons env rest ih =>
      intro s
      obtain ⟨e, he⟩ := hfail env (List.mem_cons_self env rest)
      have hrest := fun env2 hm => hfail env2 (List.mem_cons_of_mem env hm)
      unfold runLoop
      rcases hit : iteration cfg s env with ⟨evs, r⟩
      have hnr : Event.stopCheck ∉ evs := by
        have h2 := iteration_error_no_stop cfg s env e he
        rw [hit] at h2
        exact h2
      rcases r with s2 | r
      · simp only [List.mem_append, not_or]
        exact ⟨hnr, ih hrest s2⟩
      · exact hnr

/-- If every fetch in a run fails, the loop never idle-sleeps. -/
lemma runLoop_allfail_no_idle (cfg : KCLConfig) (envs : List IterEnv)
    (hfail : ∀ env ∈ envs, ∃ e, env.fetchResult = Except.error e) (d : Nat) :
    ∀ s, Event.idleSleep d ∉ (runLoop cfg s envs).1 := by
  induction envs with
  | nil => intro s; simp [runLoop]
  | cons env rest ih =>
      intro s
      obtain ⟨e, he⟩ := hfail env (List.mem_cons_self env rest)
      have hrest := fun env2 hm => hfail env2 (List.mem_cons_of_mem env hm)
      unfold runLoop
      rcases hit : iteration cfg s env with ⟨evs, r⟩
      have hnr : Event.idleSleep d ∉ evs := by
        have h2 := iteration_error_no_idle cfg s env e he d
        rw [hit] at h2
        exact h2
      rcases r with s2 | r
      · simp only [List.mem_append, not_or]
        exact ⟨hnr, ih hrest s2⟩
      · exact hnr

/-- An iteration under a valid lease, an open transactions-per-second
budget and a KMS-throttling failure within the retry budget: fetch,
back off `2^(retriedErrors+1) × 100` ms, continue with the counter bumped. -/
lemma iteration_kms (cfg : KCLConfig) (s : LoopState) (env : IterEnv)
    (hlease : env.nowAtLoopTop + cfg.leaseRefreshPeriodMillis ≤ s.leaseTimeout)
    (htps : s.transactionNum ≤ MaxReadTransactionsPerSecond)
    (hfail : env.fetchResult = Except.error GoError.kmsThrottling)
    (hbud : s.retriedErrors + 1 ≤ cfg.maxRetryCount) :
    iteration cfg s env =
      ([Event.fetch, Event.backoffSleep (2 ^ (s.retriedErrors + 1) * 100)],
       StepResult.more { s with retriedErrors := s.retriedErrors + 1 }) := by
  rw [iteration_not_due cfg s env hlease, fetchPhase_low_tps cfg s env htps,
    doFetch_kms cfg s env hfail hbud]

/-- The event trace of `N` consecutive KMS-throttled iterations started
with `retriedErrors = r`: each iteration fetches and backs off with the
exponent advancing from `r+1`. -/
def kmsTrace (r : Nat) : Nat → List Event
  | 0 => []
  | n + 1 =>
      Event.fetch :: Event.backoffSleep (2 ^ (r + 1) * 100) :: kmsTrace (r + 1) n

/-- Running the loop on `N` copies of a KMS-throttling iteration oracle
within the retry budget produces exactly the exponential-backoff trace. -/
lemma runLoop_kms_trace (cfg : KCLConfig) (env : IterEnv)
    (hfail : env.fetchResult = Except.error GoError.kmsThrottling) :
    ∀ (N : Nat) (s : LoopState),
      env.nowAtLoopTop + cfg.leaseRefreshPeriodMillis ≤ s.leaseTimeout →
      s.transactionNum ≤ MaxReadTransactionsPerSecond →
      s.retriedErrors + N ≤ cfg.maxRetryCount →
      (runLoop cfg s (List.replicate N env)).1 = kmsTrace s.retriedErrors N := by
  intro N
  induction N with
  | zero => intro s _ _ _; simp [runLoop, kmsTrace]
  | succ n ih =>
      intro s hlease htps hbud
      rw [List.replicate_succ]
      unfold runLoop
      rw [iteration_kms cfg s env hlease htps hfail (by omega)]
      have hrest := ih { s with retriedErrors := s.retriedErrors + 1 }
        (by simpa using hlease) (by simpa using htps) (by simp; omega)
      simp only [hrest, kmsTrace]
      rfl

/-- The last two events of a nonempty KMS run are the final fetch and
its backoff of `2^(r+N) × 100` ms. -/
lemma kmsTrace_split (N : Nat) (hN : 1 ≤ N) :
    ∀ r, ∃ pre, kmsTrace r N =
      pre ++ [Event.fetch, Event.backoffSleep (2 ^ (r + N) * 100)] := by
  induction N with
  | zero => omega
  | succ n ih =>
      intro r
      rcases Nat.eq_zero_or_pos n with hn | hn
      · subst hn
        exact ⟨[], by simp [kmsTrace]⟩
      · obtain ⟨pre, hpre⟩ := ih hn (r + 1)
        refine ⟨Event.fetch :: Event.backoffSleep (2 ^ (r + 1) * 100) :: pre, ?_⟩
        have harith : r + 1 + n = r + (n + 1) := by omega
        simp [kmsTrace, hpre, harith]

/-- Every backoff `2^(r+k) × 100` for `1 ≤ k ≤ N` occurs in the trace. -/
lemma kmsTrace_mem (N : Nat) :
    ∀ r k, 1 ≤ k → k ≤ N →
      Event.backoffSleep (2 ^ (r + k) * 100) ∈ kmsTrace r N := by
  induction N with
  | zero => omega
  | succ n ih =>
      intro r k hk1 hkN
      rcases Nat.eq_or_lt_of_le hk1 with hk | hk
      · simp [kmsTrace, ← hk]
      · have hmem := ih (r + 1) (k - 1) (by omega) (by omega)
        have harith : r + 1 + (k - 1) = r + k := by omega
        rw [harith] at hmem
        simp [kmsTrace, hmem]

/-- Whenever a successful iteration continues, the retry counter has
been reset to zero. -/
lemma successPhase_more_retried (cfg : KCLConfig) (s : LoopState) (env : IterEnv)
    (resp : GetRecordsOutput) (s2 : LoopState)
    (h : (successPhase cfg s env resp).2 = StepResult.more s2) :
    s2.retriedErrors = 0 := by
  unfold successPhase at h
  split at h
  · simp_all
  · split_ifs at h
    simp at h
    rw [← h]
    rfl

/-- Idle-pacing events are exactly the idle sleeps. -/
lemma filter_idleEvents (cfg : KCLConfig) (resp : GetRecordsOutput) :
    (idleEvents cfg resp).filter Event.isIdleSleep = idleEvents cfg resp := by
  unfold idleEvents
  split <;> simp [Event.isIdleSleep]

/-- On a successful fetch that continues the shard, the idle sleeps of
the iteration tail are exactly `idleEvents`. -/
lemma successPhase_idle_filter (cfg : KCLConfig) (s : LoopState) (env : IterEnv)
    (resp : GetRecordsOutput) (it : String) (h : resp.nextShardIterator = some it) :
    ((successPhase cfg s env resp).1).filter Event.isIdleSleep =
      idleEvents cfg resp := by
  unfold successPhase
  rw [h]
  split_ifs <;>
    simp [List.filter_append, Event.isIdleSleep, filter_idleEvents cfg resp]

/-- The full trace extends the body trace (by the deferred release). -/
lemma getRecords_trace_prefix (cfg : KCLConfig) (env : RunEnv) :
    ∃ tail, (getRecords cfg env).1 = (getRecordsBody cfg env).1 ++ tail := by
  unfold getRecords
  rcases hb : getRecordsBody cfg env with ⟨evs2, rr⟩
  rcases rr with r2 | s2
  · exact ⟨[Event.releaseLease], by simp⟩
  · exact ⟨[], by simp⟩

/-- Configuration used by the concrete witnesses below. -/
def wCfg : KCLConfig :=
  { maxRecords := 10, maxRetryCount := 3, idleTimeBetweenReadsInMillis := 1500,
    leaseRefreshPeriodMillis := 100 }

/-- Iteration oracle: fresh lease, fetch succeeds with one record and a
nil continuation iterator. -/
def wIterClose : IterEnv :=
  { nowAtLoopTop := 0, leaseResult := none, leaseTimeoutAfterRenew := 0,
    nowAtTps := 0, fetchStart := 0,
    fetchResult := Except.ok
      { records := [7], millisBehindLatest := some 0, nextShardIterator := none },
    fetchEnd := 10, nowAfterError := 10, stopSet := false }

/-- Run oracle: no parent issue, iterator acquired, one closing fetch. -/
def wRunClose : RunEnv :=
  { parentWaitResult := none, iteratorResult := Except.ok "iter-0",
    initialLeaseTimeout := 10000, iterEnvs := [wIterClose] }

/-- Claim C1: every completed `getRecords` invocation performs exactly
one lease-release action, on every exit path, and it is the final
action — in particular it happens after any shutdown notification to
the record processor. -/
theorem getRecords_lease_release_exactly_once (cfg : KCLConfig) (env : RunEnv)
    (evs : List Event) (r : Option GoError)
    (h : getRecords cfg env = (evs, RunResult.done r)) :
    ∃ pre, evs = pre ++ [Event.releaseLease] ∧ Event.releaseLease ∉ pre ∧
      ∀ reason, Event.shutdown reason ∈ evs → Event.shutdown reason ∈ pre := by
  unfold getRecords at h
  rcases hb : getRecordsBody cfg env with ⟨evs2, rr⟩
  rw [hb] at h
  rcases rr with r2 | s2
  · simp only [Prod.mk.injEq, RunResult.done.injEq] at h
    obtain ⟨h1, h2⟩ := h
    refine ⟨evs2, h1.symm, ?_, ?_⟩
    · have hnr := getRecordsBody_no_release cfg env
      rw [hb] at hnr
      exact hnr
    · intro reason hm
      rw [← h1] at hm
      rcases List.mem_append.1 hm with hm2 | hm2
      · exact hm2
      · simp at hm2
  · simp at h

/-- Witness for C1: the single-fetch closing run evaluates as claimed. -/
theorem getRecords_lease_release_exactly_once_witness :
    ∃ pre,
      ([Event.waitParent, Event.getShardIterator, Event.initProcessor,
        Event.fetch, Event.processRecords [7],
        Event.shutdown ShutdownReason.terminate, Event.releaseLease]
          : List Event) = pre ++ [Event.releaseLease] ∧
      Event.releaseLease ∉ pre ∧
      ∀ reason,
        Event.shutdown reason ∈
          ([Event.waitParent, Event.getShardIterator, Event.initProcessor,
            Event.fetch, Event.processRecords [7],
            Event.shutdown ShutdownReason.terminate, Event.releaseLease]
              : List Event) →
        Event.shutdown reason ∈ pre :=
  getRecords_lease_release_exactly_once wCfg wRunClose
    [Event.waitParent, Event.getShardIterator, Event.initProcessor,
     Event.fetch, Event.processRecords [7],
     Event.shutdown ShutdownReason.terminate, Event.releaseLease]
    none (by decide)

/-- Claim C5: a lease-refresh failure classified as `ErrLeaseNotAcquired`
terminates the loop returning `nil`; any other refresh error terminates
it returning that error. -/
theorem lease_not_acquired_returns_nil (cfg : KCLConfig) (s : LoopState)
    (env : IterEnv)
    (hdue : s.leaseTimeout < env.nowAtLoopTop + cfg.leaseRefreshPeriodMillis) :
    (env.leaseResult = some GoError.leaseNotAcquired →
       iteration cfg s env = ([Event.renewLeaseAttempt], StepResult.exit none)) ∧
    (∀ e, e ≠ GoError.leaseNotAcquired → env.leaseResult = some e →
       iteration cfg s env =
         ([Event.renewLeaseAttempt], StepResult.exit (some e))) := by
  constructor
  · intro hlr
    unfold iteration
    rw [if_pos hdue, hlr]
    rfl
  · intro e hne hlr
    unfold iteration
    rw [if_pos hdue, hlr]
    simp only [eq_false hne, if_false]

/-- Loop state used by the per-iteration witnesses: lease far away,
counters at zero. -/
def wState : LoopState :=
  { shardIterator := "iter-0", retriedErrors := 0, transactionNum := 0,
    firstTransactionTime := 0, leaseTimeout := 10000 }

/-- Iteration oracle whose lease refresh fails with `ErrLeaseNotAcquired`
while the refresh window is open (state `wStateDue` below). -/
def wIterLost : IterEnv :=
  { nowAtLoopTop := 9950, leaseResult := some GoError.leaseNotAcquired,
    leaseTimeoutAfterRenew := 0, nowAtTps := 0, fetchStart := 0,
    fetchResult := Except.error (GoError.other 0), fetchEnd := 0,
    nowAfterError := 0, stopSet := false }

/-- Witness for C5 at `wCfg`, `wState`, `wIterLost`. -/
theorem lease_not_acquired_returns_nil_witness :
    (wIterLost.leaseResult = some GoError.leaseNotAcquired →
       iteration wCfg wState wIterLost =
         ([Event.renewLeaseAttempt], StepResult.exit none)) ∧
    (∀ e, e ≠ GoError.leaseNotAcquired → wIterLost.leaseResult = some e →
       iteration wCfg wState wIterLost =
         ([Event.renewLeaseAttempt], StepResult.exit (some e))) :=
  lease_not_acquired_returns_nil wCfg wState wIterLost (by decide)

/-- Claim C6: during the parent-shard wait, `ErrSequenceIDNotFound` is
treated as success (the run proceeds to iterator acquisition); any other
parent-wait error terminates the run with that error before the record
processor is initialized. -/
theorem parent_wait_not_found_ignored (cfg : KCLConfig) (env : RunEnv) :
    (env.parentWaitResult = some GoError.seqIdNotFound →
       ∃ rest, (getRecords cfg env).1 =
         Event.waitParent :: Event.getShardIterator :: rest) ∧
    (∀ e, e ≠ GoError.seqIdNotFound → env.parentWaitResult = some e →
       getRecords cfg env =
         ([Event.waitParent, Event.releaseLease], RunResult.done (some e))) := by
  constructor
  · intro hp
    have hshape : ∃ rest2, (getRecordsAfterParent cfg env).1 =
        Event.getShardIterator :: rest2 := by
      unfold getRecordsAfterParent
      rcases hio : env.iteratorResult with e | it
      · exact ⟨[], rfl⟩
      · exact ⟨Event.initProcessor ::
          (runLoop cfg (initialLoopState env it) env.iterEnvs).1, rfl⟩
    have hbody : (getRecordsBody cfg env).1 =
        Event.waitParent :: (getRecordsAfterParent cfg env).1 := by
      unfold getRecordsBody
      rw [hp]
      rfl
    obtain ⟨tail, ht⟩ := getRecords_trace_prefix cfg env
    obtain ⟨rest2, h2⟩ := hshape
    refine ⟨rest2 ++ tail, ?_⟩
    rw [ht, hbody, h2]
    simp
  · intro e hne hp
    have hbody : getRecordsBody cfg env =
        ([Event.waitParent], RunResult.done (some e)) := by
      unfold getRecordsBody
      rw [hp]
      simp only [eq_false hne, if_false]
    unfold getRecords
    rw [hbody]
    rfl

/-- Run oracle whose parent wait reports `ErrSequenceIDNotFound`. -/
def wRunSeq : RunEnv :=
  { parentWaitResult := some GoError.seqIdNotFound,
    iteratorResult := Except.ok "iter-0", initialLeaseTimeout := 10000,
    iterEnvs := [] }

/-- Witness for C6 at `wCfg`, `wRunSeq`. -/
theorem parent_wait_not_found_ignored_witness :
    (wRunSeq.parentWaitResult = some GoError.seqIdNotFound →
       ∃ rest, (getRecords wCfg wRunSeq).1 =
         Event.waitParent :: Event.getShardIterator :: rest) ∧
    (∀ e, e ≠ GoError.seqIdNotFound → wRunSeq.parentWaitResult = some e →
       getRecords wCfg wRunSeq =
         ([Event.waitParent, Event.releaseLease], RunResult.done (some e))) :=
  parent_wait_not_found_ignored wCfg wRunSeq

/-- Iteration oracle for the throttle counterexample: the fetch starts
at 0 ms, fails with provisioned-throughput-exceeded and returns at
600 ms; `time.Since` is evaluated immediately (600 ms). -/
def c2Env : IterEnv :=
  { nowAtLoopTop := 0, leaseResult := none, leaseTimeoutAfterRenew := 0,
    nowAtTps := 0, fetchStart := 0,
    fetchResult := Except.error GoError.provisionedThroughputExceeded,
    fetchEnd := 600, nowAfterError := 600, stopSet := false }

/-- Counterexample to claim C2 as stated: the failed call starts at
0 ms and returns at 600 ms, so the remaining time to complete a full
1-second cooldown measured from the call's start is 400 ms — but the
code sleeps 1000 ms, the remainder measured from the timestamp taken
right after the call returned (`getRecordsTransactionTime`). -/
theorem throttle_delay_counterexample :
    (iteration wCfg wState c2Env).1 = [Event.fetch, Event.throttleSleep 1000] ∧
    1000 - (c2Env.nowAfterError - c2Env.fetchStart) = 400 ∧
    Event.throttleSleep (1000 - (c2Env.nowAfterError - c2Env.fetchStart)) ∉
      (iteration wCfg wState c2Env).1 := by
  decide

/-- Claim C2 (amended): on a provisioned-throughput-exceeded failure
within the retry budget, the delay before the retry equals the
remaining time to complete a full 1-second cooldown measured from the
timestamp taken immediately after the failed call returned, clamped to
zero (no sleep) if a second has already elapsed since that timestamp. -/
theorem throttle_delay_remainder_from_call_return (cfg : KCLConfig)
    (s : LoopState) (env : IterEnv)
    (hlease : env.nowAtLoopTop + cfg.leaseRefreshPeriodMillis ≤ s.leaseTimeout)
    (htps : s.transactionNum ≤ MaxReadTransactionsPerSecond)
    (hfail : env.fetchResult = Except.error GoError.provisionedThroughputExceeded)
    (hbud : s.retriedErrors + 1 ≤ cfg.maxRetryCount) :
    iteration cfg s env =
      ((if env.nowAfterError - env.fetchEnd < 1000 then
          [Event.fetch,
           Event.throttleSleep (1000 - (env.nowAfterError - env.fetchEnd))]
        else [Event.fetch]),
       StepResult.more { s with retriedErrors := s.retriedErrors + 1 }) := by
  rw [iteration_not_due cfg s env hlease, fetchPhase_low_tps cfg s env htps,
    doFetch_pte cfg s env hfail hbud]
  split_ifs <;> rfl

/-- Iteration oracle for the amended-C2 witness: throttled fetch
returning at 600 ms, retry evaluated at 900 ms. -/
def c2WEnv : IterEnv :=
  { c2Env with fetchEnd := 600, nowAfterError := 900 }

/-- Witness for amended C2 at `wCfg`, `wState`, `c2WEnv`. -/
theorem throttle_delay_remainder_witness :
    iteration wCfg wState c2WEnv =
      ((if c2WEnv.nowAfterError - c2WEnv.fetchEnd < 1000 then
          [Event.fetch,
           Event.throttleSleep (1000 - (c2WEnv.nowAfterError - c2WEnv.fetchEnd))]
        else [Event.fetch]),
       StepResult.more { wState with retriedErrors := wState.retriedErrors + 1 }) :=
  throttle_delay_remainder_from_call_return wCfg wState c2WEnv (by decide)
    (by decide) (by decide) (by decide)

/-- Claim C3: starting from a reset counter, `N` consecutive
KMS-throttling failures within the retry budget back off `100 × 2^k` ms
after the `k`-th failure; in particular the sleep before the `(N+1)`-th
attempt is `100 × 2^N` ms. -/
theorem kms_backoff_exponential (cfg : KCLConfig) (s : LoopState) (env : IterEnv)
    (N : Nat) (hret : s.retriedErrors = 0) (hN : 1 ≤ N)
    (hbud : N ≤ cfg.maxRetryCount)
    (hfail : env.fetchResult = Except.error GoError.kmsThrottling)
    (hlease : env.nowAtLoopTop + cfg.leaseRefreshPeriodMillis ≤ s.leaseTimeout)
    (htps : s.transactionNum ≤ MaxReadTransactionsPerSecond) :
    (∃ pre, (runLoop cfg s (List.replicate N env)).1 =
        pre ++ [Event.fetch, Event.backoffSleep (100 * 2 ^ N)]) ∧
    ∀ k, 1 ≤ k → k ≤ N →
      Event.backoffSleep (100 * 2 ^ k) ∈
        (runLoop cfg s (List.replicate N env)).1 := by
  have htr := runLoop_kms_trace cfg env hfail N s hlease htps (by omega)
  rw [hret] at htr
  constructor
  · obtain ⟨pre, hpre⟩ := kmsTrace_split N hN 0
    rw [htr, hpre]
    exact ⟨pre, by simp [Nat.mul_comm]⟩
  · intro k hk1 hkN
    rw [htr]
    have hmem := kmsTrace_mem N 0 k hk1 hkN
    simpa [Nat.mul_comm] using hmem

/-- Iteration oracle whose fetch fails with KMS throttling. -/
def c3Env : IterEnv :=
  { nowAtLoopTop := 0, leaseResult := none, leaseTimeoutAfterRenew := 0,
    nowAtTps := 0, fetchStart := 0,
    fetchResult := Except.error GoError.kmsThrottling,
    fetchEnd := 10, nowAfterError := 10, stopSet := false }

/-- Witness for C3 with two consecutive KMS failures. -/
theorem kms_backoff_exponential_witness :
    (∃ pre, (runLoop wCfg wState (List.replicate 2 c3Env)).1 =
        pre ++ [Event.fetch, Event.backoffSleep (100 * 2 ^ 2)]) ∧
    ∀ k, 1 ≤ k → k ≤ 2 →
      Event.backoffSleep (100 * 2 ^ k) ∈
        (runLoop wCfg wState (List.replicate 2 c3Env)).1 :=
  kms_backoff_exponential wCfg wState c3Env 2 (by decide) (by decide)
    (by decide) (by decide) (by decide) (by decide)

/-- Claim C4: both retriable error classes bump the one shared
`retriedErrors` counter and retry while it stays within `maxRetryCount`
(so alternating classes accumulate toward the same ceiling); past the
ceiling the triggering error is returned; the counter is reset to zero
by every successful fetch that continues; and whenever `getRecords`
returns, the lease has been released. -/
theorem retry_counter_shared_reset_and_ceiling (cfg : KCLConfig)
    (s : LoopState) (env : IterEnv)
    (hlease : env.nowAtLoopTop + cfg.leaseRefreshPeriodMillis ≤ s.leaseTimeout)
    (htps : s.transactionNum ≤ MaxReadTransactionsPerSecond) :
    (∀ e, (e = GoError.provisionedThroughputExceeded ∨ e = GoError.kmsThrottling) →
       env.fetchResult = Except.error e →
       (s.retriedErrors + 1 ≤ cfg.maxRetryCount →
          ∃ evs, iteration cfg s env =
            (evs, StepResult.more { s with retriedErrors := s.retriedErrors + 1 })) ∧
       (cfg.maxRetryCount < s.retriedErrors + 1 →
          iteration cfg s env = ([Event.fetch], StepResult.exit (some e)))) ∧
    (∀ resp s2, env.fetchResult = Except.ok resp →
       (iteration cfg s env).2 = StepResult.more s2 → s2.retriedErrors = 0) ∧
    (∀ renv evs r, getRecords cfg renv = (evs, RunResult.done r) →
       Event.releaseLease ∈ evs) := by
  refine ⟨?_, ?_, ?_⟩
  · intro e he hfail
    constructor
    · intro hbud
      rcases he with he | he <;> subst he
      · rw [iteration_not_due cfg s env hlease, fetchPhase_low_tps cfg s env htps,
          doFetch_pte cfg s env hfail hbud]
        exact ⟨_, rfl⟩
      · rw [iteration_not_due cfg s env hlease, fetchPhase_low_tps cfg s env htps,
          doFetch_kms cfg s env hfail hbud]
        exact ⟨_, rfl⟩
    · intro hexc
      rw [iteration_not_due cfg s env hlease, fetchPhase_low_tps cfg s env htps,
        doFetch_budget_exhausted cfg s env e he hfail hexc]
  · intro resp s2 hok hmore
    rw [iteration_not_due cfg s env hlease, fetchPhase_low_tps cfg s env htps]
      at hmore
    have hm2 : (doFetch cfg s env).2 = StepResult.more s2 := hmore
    unfold doFetch at hm2
    rw [hok] at hm2
    exact successPhase_more_retried cfg s env resp s2 hm2
  · intro renv evs r h
    unfold getRecords at h
    rcases hb : getRecordsBody cfg renv with ⟨evs2, rr⟩
    rw [hb] at h
    rcases rr with r2 | s2
    · simp only [Prod.mk.injEq, RunResult.done.injEq] at h
      rw [← h.1]
      simp
    · simp at h

/-- Witness for C4 at `wCfg`, `wState`, `c3Env`. -/
theorem retry_counter_shared_reset_and_ceiling_witness :
    (∀ e, (e = GoError.provisionedThroughputExceeded ∨ e = GoError.kmsThrottling) →
       c3Env.fetchResult = Except.error e →
       (wState.retriedErrors + 1 ≤ wCfg.maxRetryCount →
          ∃ evs, iteration wCfg wState c3Env =
            (evs, StepResult.more
              { wState with retriedErrors := wState.retriedErrors + 1 })) ∧
       (wCfg.maxRetryCount < wState.retriedErrors + 1 →
          iteration wCfg wState c3Env = ([Event.fetch], StepResult.exit (some e)))) ∧
    (∀ resp s2, c3Env.fetchResult = Except.ok resp →
       (iteration wCfg wState c3Env).2 = StepResult.more s2 →
       s2.retriedErrors = 0) ∧
    (∀ renv evs r, getRecords wCfg renv = (evs, RunResult.done r) →
       Event.releaseLease ∈ evs) :=
  retry_counter_shared_reset_and_ceiling wCfg wState c3Env (by decide) (by decide)

/-- Recognises the fetch event. -/
def Event.isFetch : Event → Bool
  | Event.fetch => true
  | _ => false

/-- Recognises the lease-release event. -/
def Event.isRelease : Event → Bool
  | Event.releaseLease => true
  | _ => false

/-- A successful fetch hands over to `successPhase`. -/
lemma doFetch_ok (cfg : KCLConfig) (s : LoopState) (env : IterEnv)
    (resp : GetRecordsOutput) (h : env.fetchResult = Except.ok resp) :
    doFetch cfg s env = successPhase cfg s env resp := by
  unfold doFetch
  rw [h]

/-- Claim C7: a successful fetch whose response carries a nil
continuation iterator delivers the batch to the processor, then
notifies shutdown with reason `terminate` and returns `nil`; and
end-to-end, a shard whose first fetch returns a nil continuation
iterator terminates cleanly after exactly one fetch, one shutdown
notification and one lease release. -/
theorem nil_next_iterator_clean_termination (cfg : KCLConfig) (s : LoopState)
    (env : IterEnv) (resp : GetRecordsOutput) (renv : RunEnv) (it : String)
    (e1 : IterEnv) (resp1 : GetRecordsOutput)
    (hlease : env.nowAtLoopTop + cfg.leaseRefreshPeriodMillis ≤ s.leaseTimeout)
    (htps : s.transactionNum ≤ MaxReadTransactionsPerSecond)
    (hok : env.fetchResult = Except.ok resp)
    (hnil : resp.nextShardIterator = none)
    (hparent : renv.parentWaitResult = none)
    (hiter : renv.iteratorResult = Except.ok it)
    (henvs : renv.iterEnvs = [e1])
    (hlease1 : e1.nowAtLoopTop + cfg.leaseRefreshPeriodMillis ≤
      renv.initialLeaseTimeout)
    (hok1 : e1.fetchResult = Except.ok resp1)
    (hnil1 : resp1.nextShardIterator = none) :
    iteration cfg s env =
      ([Event.fetch, Event.processRecords resp.records,
        Event.shutdown ShutdownReason.terminate], StepResult.exit none) ∧
    getRecords cfg renv =
      ([Event.waitParent, Event.getShardIterator, Event.initProcessor,
        Event.fetch, Event.processRecords resp1.records,
        Event.shutdown ShutdownReason.terminate, Event.releaseLease],
       RunResult.done none) ∧
    ((getRecords cfg renv).1).filter Event.isFetch = [Event.fetch] ∧
    ((getRecords cfg renv).1).filter Event.isShutdown =
      [Event.shutdown ShutdownReason.terminate] ∧
    ((getRecords cfg renv).1).filter Event.isRelease = [Event.releaseLease] := by
  have hgen : ∀ (s2 : LoopState) (env2 : IterEnv) (resp2 : GetRecordsOutput),
      env2.nowAtLoopTop + cfg.leaseRefreshPeriodMillis ≤ s2.leaseTimeout →
      s2.transactionNum ≤ MaxReadTransactionsPerSecond →
      env2.fetchResult = Except.ok resp2 →
      resp2.nextShardIterator = none →
      iteration cfg s2 env2 =
        ([Event.fetch, Event.processRecords resp2.records,
          Event.shutdown ShutdownReason.terminate], StepResult.exit none) := by
    intro s2 env2 resp2 hl ht ho hn
    rw [iteration_not_due cfg s2 env2 hl, fetchPhase_low_tps cfg s2 env2 ht,
      doFetch_ok cfg s2 env2 resp2 ho,
      successPhase_nil_iterator cfg s2 env2 resp2 hn]
  have hiter1 := hgen (initialLoopState renv it) e1 resp1
    (by simpa [initialLoopState] using hlease1)
    (by simp [initialLoopState, MaxReadTransactionsPerSecond]) hok1 hnil1
  have hloop : runLoop cfg (initialLoopState renv it) renv.iterEnvs =
      ([Event.fetch, Event.processRecords resp1.records,
        Event.shutdown ShutdownReason.terminate], RunResult.done none) := by
    rw [henvs]
    unfold runLoop
    rw [hiter1]
  have hafter : getRecordsAfterParent cfg renv =
      ([Event.getShardIterator, Event.initProcessor, Event.fetch,
        Event.processRecords resp1.records,
        Event.shutdown ShutdownReason.terminate], RunResult.done none) := by
    unfold getRecordsAfterParent
    simp only [hiter]
    rw [hloop]
  have hbody : getRecordsBody cfg renv =
      ([Event.waitParent, Event.getShardIterator, Event.initProcessor,
        Event.fetch, Event.processRecords resp1.records,
        Event.shutdown ShutdownReason.terminate], RunResult.done none) := by
    unfold getRecordsBody
    simp only [hparent]
    rw [hafter]
  have hfull : getRecords cfg renv =
      ([Event.waitParent, Event.getShardIterator, Event.initProcessor,
        Event.fetch, Event.processRecords resp1.records,
        Event.shutdown ShutdownReason.terminate, Event.releaseLease],
       RunResult.done none) := by
    unfold getRecords
    rw [hbody]
    rfl
  refine ⟨hgen s env resp hlease htps hok hnil, hfull, ?_, ?_, ?_⟩ <;>
    rw [hfull] <;>
    simp [Event.isFetch, Event.isShutdown, Event.isRelease]

/-- Witness for C7 on the closing single-fetch run. -/
theorem nil_next_iterator_clean_termination_witness :
    iteration wCfg wState wIterClose =
      ([Event.fetch, Event.processRecords [7],
        Event.shutdown ShutdownReason.terminate], StepResult.exit none) ∧
    getRecords wCfg wRunClose =
      ([Event.waitParent, Event.getShardIterator, Event.initProcessor,
        Event.fetch, Event.processRecords [7],
        Event.shutdown ShutdownReason.terminate, Event.releaseLease],
       RunResult.done none) ∧
    ((getRecords wCfg wRunClose).1).filter Event.isFetch = [Event.fetch] ∧
    ((getRecords wCfg wRunClose).1).filter Event.isShutdown =
      [Event.shutdown ShutdownReason.terminate] ∧
    ((getRecords wCfg wRunClose).1).filter Event.isRelease =
      [Event.releaseLease] :=
  nil_next_iterator_clean_termination wCfg wState wIterClose
    { records := [7], millisBehindLatest := some 0, nextShardIterator := none }
    wRunClose "iter-0" wIterClose
    { records := [7], millisBehindLatest := some 0, nextShardIterator := none }
    (by decide) (by decide) (by decide) (by decide) (by decide) (by decide)
    (by decide) (by decide) (by decide) (by decide)

/-- Loop state inside a window that already saw six transactions, the
first of them at time 0. -/
def c8State : LoopState :=
  { shardIterator := "iter-0", retriedErrors := 0, transactionNum := 6,
    firstTransactionTime := 0, leaseTimeout := 10000 }

/-- Iteration oracle at 400 ms since the window's first transaction. -/
def c8Env : IterEnv :=
  { nowAtLoopTop := 0, leaseResult := none, leaseTimeoutAfterRenew := 0,
    nowAtTps := 400, fetchStart := 400,
    fetchResult := Except.ok
      { records := [1], millisBehindLatest := some 0,
        nextShardIterator := some "iter-1" },
    fetchEnd := 410, nowAfterError := 410, stopSet := false }

/-- Source-bug exhibit for claim C8: with six transactions already in
the window (`transactionNum = 6 > MaxReadTransactionsPerSecond`) and
only 400 ms elapsed since the window's first call, the guard sleeps
`timeDiff = 400` ms — the elapsed time itself, not the remainder of the
second — after which only 800 ms have elapsed since the window opened,
so issuing the next call still exceeds five calls per second; the sleep
needed for compliance is 600 ms. -/
theorem tps_guard_sleep_insufficient :
    MaxReadTransactionsPerSecond < c8State.transactionNum ∧
    c8Env.nowAtTps - c8State.firstTransactionTime = 400 ∧
    (iteration wCfg c8State c8Env).1.take 2 =
      [Event.tpsSleep 400, Event.fetch] ∧
    400 + (c8Env.nowAtTps - c8State.firstTransactionTime) < 1000 := by
  decide

/-- Claim C9: on a successful fetch that continues the shard, the idle
sleeps of the iteration are exactly one sleep of the configured idle
interval when the batch was empty and the reported lag is below the
idle threshold, and none otherwise — in particular none whenever the
batch is nonempty, regardless of lag. -/
theorem idle_pacing_iff (cfg : KCLConfig) (s : LoopState) (env : IterEnv)
    (resp : GetRecordsOutput) (it : String)
    (hlease : env.nowAtLoopTop + cfg.leaseRefreshPeriodMillis ≤ s.leaseTimeout)
    (htps : s.transactionNum ≤ MaxReadTransactionsPerSecond)
    (hok : env.fetchResult = Except.ok resp)
    (hit : resp.nextShardIterator = some it) :
    ((iteration cfg s env).1).filter Event.isIdleSleep =
      (if resp.records.length = 0 ∧
          awsToInt64 resp.millisBehindLatest <
            (cfg.idleTimeBetweenReadsInMillis : Int) then
        [Event.idleSleep cfg.idleTimeBetweenReadsInMillis]
      else []) := by
  rw [iteration_not_due cfg s env hlease, fetchPhase_low_tps cfg s env htps,
    doFetch_ok cfg s env resp hok]
  have h2 := successPhase_idle_filter cfg s env resp it hit
  show (Event.fetch :: (successPhase cfg s env resp).1).filter
    Event.isIdleSleep = _
  rw [List.filter_cons]
  simp only [show Event.isIdleSleep Event.fetch = false from rfl,
    Bool.false_eq_true, if_false, h2]
  unfold idleEvents
  rfl

/-- Response of a successful empty fetch, 100 ms behind latest, with a
continuation iterator. -/
def c9Resp : GetRecordsOutput :=
  { records := [], millisBehindLatest := some 100,
    nextShardIterator := some "iter-1" }

/-- Iteration oracle: successful empty fetch, 100 ms behind latest,
with a continuation iterator. -/
def c9Env : IterEnv :=
  { nowAtLoopTop := 0, leaseResult := none, leaseTimeoutAfterRenew := 0,
    nowAtTps := 0, fetchStart := 0, fetchResult := Except.ok c9Resp,
    fetchEnd := 10, nowAfterError := 10, stopSet := false }

/-- Witness for C9 at `wCfg`, `wState`, `c9Env` (empty caught-up batch). -/
theorem idle_pacing_iff_witness :
    ((iteration wCfg wState c9Env).1).filter Event.isIdleSleep =
      (if c9Resp.records.length = 0 ∧
          awsToInt64 c9Resp.millisBehindLatest <
            (wCfg.idleTimeBetweenReadsInMillis : Int) then
        [Event.idleSleep wCfg.idleTimeBetweenReadsInMillis]
      else []) :=
  idle_pacing_iff wCfg wState c9Env c9Resp "iter-1" (by decide) (by decide)
    (by decide) (by decide)

/-- Claim C10: the stop signal is polled only after a successful fetch
and delivery — an iteration whose fetch fails performs neither the
stop-channel poll nor the idle sleep, and a run all of whose fetches
fail never observes the stop signal. -/
theorem stop_signal_unobserved_on_failing_fetches (cfg : KCLConfig)
    (s : LoopState) (envs : List IterEnv)
    (hfail : ∀ env ∈ envs, ∃ e, env.fetchResult = Except.error e) :
    (Event.stopCheck ∉ (runLoop cfg s envs).1 ∧
      ∀ d, Event.idleSleep d ∉ (runLoop cfg s envs).1) ∧
    ∀ (s2 : LoopState) (env : IterEnv) (e : GoError),
      env.fetchResult = Except.error e →
      Event.stopCheck ∉ (iteration cfg s2 env).1 ∧
        ∀ d, Event.idleSleep d ∉ (iteration cfg s2 env).1 :=
  ⟨⟨runLoop_allfail_no_stop cfg envs hfail s,
    fun d => runLoop_allfail_no_idle cfg envs hfail d s⟩,
   fun s2 env e he =>
     ⟨iteration_error_no_stop cfg s2 env e he,
      fun d => iteration_error_no_idle cfg s2 env e he d⟩⟩

/-- Witness for C10 on a run of two throttled fetches. -/
theorem stop_signal_unobserved_witness :
    (Event.stopCheck ∉ (runLoop wCfg wState [c3Env, c2Env]).1 ∧
      ∀ d, Event.idleSleep d ∉ (runLoop wCfg wState [c3Env, c2Env]).1) ∧
    ∀ (s2 : LoopState) (env : IterEnv) (e : GoError),
      env.fetchResult = Except.error e →
      Event.stopCheck ∉ (iteration wCfg s2 env).1 ∧
        ∀ d, Event.idleSleep d ∉ (iteration wCfg s2 env).1 :=
  stop_signal_unobserved_on_failing_fetches wCfg wState [c3Env, c2Env]
    (by
      intro env hm
      simp only [List.mem_cons, List.not_mem_nil, or_false] at hm
      rcases hm with hm | hm <;> subst hm
      · exact ⟨GoError.kmsThrottling, rfl⟩
      · exact ⟨GoError.provisionedThroughputExceeded, rfl⟩)

end KCLWorker
